import Mathlib

/-!
Verification of the invoice form-action pipeline, the authorization gate and
the credential exchange of the Learn-NextJS dashboard application.

The definitions below are a shallow embedding of the two source files:

* `app/lib/actions.ts` (the server actions file): the zod `formSchema`,
  the schemas `CreateInvoice = UpdateInvoice = formSchema.omit({id, date})`,
  and the actions `createInvoice`, `updateInvoice`, `deleteInvoice`,
  `authenticate`.
* `auth.config.ts`: the `authorized` callback.

Form data is modelled as the three raw values the actions read with
`formData.get` (a string, or `null` when the field is absent).  The
database is a list of rows; the single SQL statement each action issues is
modelled as the corresponding pure transformation of that list, and the
possibility of the statement throwing (caught by the try/catch in the
source) is an explicit boolean parameter of the action.  JavaScript
exceptions are explicit result constructors.
-/

/-- A persisted row of the `invoices` table.  `amount` is kept as a rational
number: the source computes `amountInCents = amount * 100` with no rounding,
so the value handed to the INSERT/UPDATE statement need not be an integer. -/
structure InvoiceRow where
  id : String
  customer_id : String
  amount : ℚ
  status : String
  date : String
deriving DecidableEq, Repr

/-- The stored invoices. -/
abbrev DB := List InvoiceRow

/-- The three raw form fields the actions read with `formData.get`:
`formData.get` returns the submitted string, or `null` (here `none`) when
the field is absent from the form data. -/
structure RawForm where
  customerId : Option String
  amount : Option String
  status : Option String
deriving DecidableEq, Repr

/-- The normalized output of a successful `CreateInvoice.safeParse` /
`UpdateInvoice.safeParse`: `amount` is still in major units. -/
structure InvoiceFields where
  customerId : String
  amount : ℚ
  status : String
deriving DecidableEq, Repr

/-- The flattened field-error map `validatedFields.error.flatten().fieldErrors`
restricted to the three validated fields; a field with no violations carries
the empty list (zod omits the key). -/
structure FieldErrors where
  customerId : List String
  amount : List String
  status : List String
deriving DecidableEq, Repr

/-- Result of `safeParse`: success with the parsed data, or failure with the
flattened field-error map. -/
inductive ParseResult where
  | success (data : InvoiceFields)
  | failure (fieldErrors : FieldErrors)
deriving DecidableEq, Repr

/- ---------------------------------------------------------------------- -/
/- JavaScript number coercion, as performed by z.coerce.number()           -/
/- ---------------------------------------------------------------------- -/

/-- Whitespace characters stripped by the JavaScript ToNumber conversion
(the forms relevant to form input). -/
def isJsWs (c : Char) : Bool :=
  c = ' ' || c = '\t' || c = '\n' || c = '\r'

/-- Strip leading and trailing whitespace. -/
def trimChars (cs : List Char) : List Char :=
  ((cs.dropWhile isJsWs).reverse.dropWhile isJsWs).reverse

/-- Split a character list at the first decimal point, if any. -/
def splitDot : List Char → List Char × Option (List Char)
  | [] => ([], none)
  | c :: rest =>
      if c = '.' then ([], some rest)
      else
        let (a, b) := splitDot rest
        (c :: a, b)

/-- Value of a (possibly empty) digit string; `none` if a non-digit occurs. -/
def decValAux : Nat → List Char → Option Nat
  | acc, [] => some acc
  | acc, c :: cs =>
      if c.isDigit then decValAux (acc * 10 + (c.toNat - 48)) cs
      else none

/-- Parsed shape of a decimal numeral: a sign, the integer-part value, the
fraction-part value, and the number of fraction digits. -/
abbrev NumRep := Bool × Nat × Nat × Nat

/-- Recognition step of the JavaScript `Number(string)` conversion used by
`z.coerce.number()`: surrounding whitespace is ignored, the empty string
converts to `0`, and a decimal numeral (optional sign, integer digits,
optional decimal point and fraction digits, at least one digit in total)
is accepted.  Any other string converts to NaN, modelled as `none`.
(The hexadecimal, binary, octal, exponent and Infinity numeral forms of
the full JavaScript grammar are never produced by this application's
amount field and are likewise mapped to `none`.) -/
def jsNumberRep (s : String) : Option NumRep :=
  match trimChars s.data with
  | [] => some (false, 0, 0, 0)
  | cs =>
      let (neg, body) :=
        match cs with
        | '-' :: rest => (true, rest)
        | '+' :: rest => (false, rest)
        | rest => (false, rest)
      match splitDot body with
      | (intPart, none) =>
          if intPart.isEmpty then none
          else (decValAux 0 intPart).map (fun n => (neg, n, 0, 0))
      | (intPart, some fracPart) =>
          if intPart.isEmpty && fracPart.isEmpty then none
          else
            match decValAux 0 intPart, decValAux 0 fracPart with
            | some i, some f => some (neg, i, f, fracPart.length)
            | _, _ => none

/-- Numeric value of a parsed decimal numeral. -/
def ratOfRep : NumRep → ℚ
  | (neg, i, f, k) => (if neg then -1 else 1) * ((i : ℚ) + (f : ℚ) / (10 : ℚ) ^ k)

/-- The JavaScript `Number(string)` conversion: the value of the recognized
decimal numeral, or `none` for NaN. -/
def jsNumber (s : String) : Option ℚ :=
  (jsNumberRep s).map ratOfRep

/-- The coercion step of `z.coerce.number()` applied to a form value:
`Number(null) = 0` when the field is absent, `Number(string)` otherwise.
`none` in the result is NaN. -/
def coerceNumber (v : Option String) : Option ℚ :=
  match v with
  | none => some 0
  | some s => jsNumber s

/- ---------------------------------------------------------------------- -/
/- The zod schema: formSchema.omit({id: true, date: true})                 -/
/- ---------------------------------------------------------------------- -/

/-- Check of `z.string({invalid_type_error: 'Please select a customer'})`
on a form value: a missing field (`null`) is not a string, so zod raises
`invalid_type` with the configured message; any submitted string — the
empty string included — passes. -/
def validateCustomerId (v : Option String) : Except (List String) String :=
  match v with
  | none => .error ["Please select a customer"]
  | some s => .ok s

/-- Check of `z.coerce.number().gt(0, {message: 'Please enter an amount
greater tahn $0.'})`: the raw value is first coerced with `Number`; NaN
fails the number type check with zod's default invalid-type message and
the `gt` check is not reached; otherwise the strict `> 0` check applies
with the configured message (the source misspells "than" as "tahn"). -/
def validateAmount (v : Option String) : Except (List String) ℚ :=
  match coerceNumber v with
  | none => .error ["Expected number, received nan"]
  | some q =>
      if 0 < q then .ok q
      else .error ["Please enter an amount greater tahn $0."]

/-- The single-quote character, U+0027. -/
def quoteMark : String := String.singleton (Char.ofNat 39)

/-- A value wrapped in single quotes, as zod prints enum options and the
received value in its default messages. -/
def quoted (s : String) : String := quoteMark ++ s ++ quoteMark

/-- The default message of zod's `invalid_enum_value` issue for the enum
`['pending', 'paid']` and a given received string. -/
def invalidEnumValueMessage (received : String) : String :=
  "Invalid enum value. Expected " ++ quoted "pending" ++ " | " ++ quoted "paid"
    ++ ", received " ++ quoted received

/-- Check of `z.enum(['pending', 'paid'], {invalid_type_error: 'Please
select an invoice status'})`: a missing field (`null`) is not a string, so
zod raises `invalid_type`, and the configured `invalid_type_error` message
applies to that issue code; a submitted string outside the enum raises
`invalid_enum_value` instead, which the `invalid_type_error` parameter does
not cover, so it carries zod's default message naming the options and the
received value. -/
def validateStatus (v : Option String) : Except (List String) String :=
  match v with
  | none => .error ["Please select an invoice status"]
  | some s =>
      if s = "pending" || s = "paid" then .ok s
      else .error [invalidEnumValueMessage s]

/-- The error list a field contributes to the flattened error map. -/
def errsOf {α : Type} : Except (List String) α → List String
  | .ok _ => []
  | .error es => es

/-- The `safeParse` of `formSchema.omit({id: true, date: true})`: the three
remaining fields are validated independently and all violations are
collected into the flattened field-error map. -/
def omitIdDateSafeParse (raw : RawForm) : ParseResult :=
  match validateCustomerId raw.customerId, validateAmount raw.amount,
        validateStatus raw.status with
  | .ok c, .ok a, .ok s => .success ⟨c, a, s⟩
  | rc, ra, rs => .failure ⟨errsOf rc, errsOf ra, errsOf rs⟩

/-- The schema `CreateInvoice = formSchema.omit({id: true, date: true})`,
as the parse function it induces on the raw form fields. -/
def CreateInvoice : RawForm → ParseResult := omitIdDateSafeParse

/-- The schema `UpdateInvoice = formSchema.omit({id: true, date: true})`,
as the parse function it induces on the raw form fields. -/
def UpdateInvoice : RawForm → ParseResult := omitIdDateSafeParse

/- ---------------------------------------------------------------------- -/
/- The server actions                                                      -/
/- ---------------------------------------------------------------------- -/

/-- What a mutation action hands back to its caller: the early return
`{errors, message}` on validation failure, the `{message}` return from the
catch block on a database error, or the terminal `redirect(path)` call on
success. -/
inductive ActionResult where
  | fieldFailure (errors : FieldErrors) (message : String)
  | dbFailure (message : String)
  | redirected (path : String)
deriving DecidableEq, Repr

/-- Full observable outcome of a mutation action: the stored invoices
afterwards, the paths passed to `revalidatePath`, and the returned result. -/
structure ActionOutcome where
  db : DB
  revalidated : List String
  result : ActionResult
deriving DecidableEq, Repr

/-- The server action `createInvoice`.  `newId` stands for the id the
database assigns to the inserted row and `today` for the value of
`new Date().toISOString().split('T')[0]` — the UTC calendar date of the
invocation.  `sqlFails` is true when the INSERT statement throws (the
error caught by the try/catch). -/
def createInvoice (db : DB) (newId today : String) (sqlFails : Bool)
    (form : RawForm) : ActionOutcome :=
  match CreateInvoice form with
  | .failure errs =>
      ⟨db, [], .fieldFailure errs "Missing Fields. Failed to Create Invoice."⟩
  | .success data =>
      let amountInCents := data.amount * 100
      if sqlFails then
        ⟨db, [], .dbFailure "Database Error: Failed to Create Invoice"⟩
      else
        ⟨db ++ [⟨newId, data.customerId, amountInCents, data.status, today⟩],
         ["/dashboard/invoices"], .redirected "/dashboard/invoices"⟩

/-- Effect of the UPDATE statement on one stored row: the row matching
`id` gets the new `customer_id`, `amount` and `status`; every other row —
and the `id` and `date` columns of every row — is untouched. -/
def updateRow (id customerId : String) (amountInCents : ℚ) (status : String)
    (r : InvoiceRow) : InvoiceRow :=
  if r.id = id then
    { r with customer_id := customerId, amount := amountInCents,
             status := status }
  else r

/-- The server action `updateInvoice`.  `sqlFails` is true when the UPDATE
statement throws. -/
def updateInvoice (db : DB) (id : String) (sqlFails : Bool)
    (form : RawForm) : ActionOutcome :=
  match UpdateInvoice form with
  | .failure errs =>
      ⟨db, [], .fieldFailure errs "Missing Fields. Failed to Update Invoice."⟩
  | .success data =>
      let amountInCents := data.amount * 100
      if sqlFails then
        ⟨db, [], .dbFailure "Database Error: Failed to Update Invoice"⟩
      else
        ⟨db.map (updateRow id data.customerId amountInCents data.status),
         ["/dashboard/invoices"], .redirected "/dashboard/invoices"⟩

/-- The statements of the `deleteInvoice` body, in source order. -/
inductive Stmt where
  | throwError (message : String)
  | sqlDelete (id : String)
  | revalidate (path : String)

/-- Database and revalidation state threaded through a statement list. -/
structure St where
  db : DB
  revalidated : List String
deriving DecidableEq, Repr

/-- Run one statement: an uncaught `throw` aborts with the error message
and the state reached so far. -/
def runStmt (st : St) : Stmt → Except (String × St) St
  | .throwError m => .error (m, st)
  | .sqlDelete id => .ok { st with db := st.db.filter (fun r => !(r.id = id)) }
  | .revalidate p => .ok { st with revalidated := st.revalidated ++ [p] }

/-- Run a statement list in order, stopping at the first throw. -/
def runStmts (stmts : List Stmt) (st : St) : Except (String × St) St :=
  match stmts with
  | [] => .ok st
  | s :: rest =>
      match runStmt st s with
      | .ok st2 => runStmts rest st2
      | .error e => .error e

/-- The body of `deleteInvoice`: a `throw new Error('Failed to Delete
Invoice')` on its first line, then the DELETE statement and the
`revalidatePath` call. -/
def deleteInvoiceBody (id : String) : List Stmt :=
  [.throwError "Failed to Delete Invoice",
   .sqlDelete id,
   .revalidate "/dashboard/invoices"]

/-- The server action `deleteInvoice`, as the run of its statement list on
the current store. -/
def deleteInvoice (db : DB) (id : String) : Except (String × St) St :=
  runStmts (deleteInvoiceBody id) ⟨db, []⟩

/- ---------------------------------------------------------------------- -/
/- The authorized callback (auth.config.ts)                                -/
/- ---------------------------------------------------------------------- -/

/-- What the `authorized` callback returns: `true` (allow), `false`
(deny — NextAuth then redirects the user to the login page), or a
`Response.redirect` to the given path. -/
inductive AuthDecision where
  | allow
  | deny
  | redirectResponse (path : String)
deriving DecidableEq, Repr

/-- Test that the first list begins with the second: the character-level
content of the JavaScript `String.prototype.startsWith` call in
`auth.config.ts`. -/
def listStartsWith : List Char → List Char → Bool
  | _, [] => true
  | [], _ :: _ => false
  | c :: cs, p :: ps => c = p && listStartsWith cs ps

/-- The JavaScript `pathname.startsWith(pre)` test on strings. -/
def strStartsWith (s pre : String) : Bool :=
  listStartsWith s.data pre.data

/-- The `authorized` callback of `auth.config.ts`: `isLoggedIn` is
`!!auth?.user` and `pathname` is `nextUrl.pathname`. -/
def authorized (isLoggedIn : Bool) (pathname : String) : AuthDecision :=
  let isOnDashboard := strStartsWith pathname "/dashboard"
  if isOnDashboard then
    if isLoggedIn then .allow else .deny
  else if isLoggedIn then .redirectResponse "/dashboard"
  else .allow

/- ---------------------------------------------------------------------- -/
/- The authenticate action                                                 -/
/- ---------------------------------------------------------------------- -/

/-- Outcome of the underlying `signIn('credentials', formData)` call:
normal completion, a thrown `AuthError` carrying its `type` string, or a
thrown non-`AuthError` value (an infrastructure fault). -/
inductive SignInOutcome where
  | success
  | authFailure (type : String)
  | otherFailure (err : String)
deriving DecidableEq, Repr

/-- What `authenticate` does: return normally (with `undefined` on
success, or a user-facing message string), or let an exception propagate. -/
inductive AuthenticateResult where
  | returns (message : Option String)
  | throws (err : String)
deriving DecidableEq, Repr

/-- The server action `authenticate`: `signIn` is awaited inside a
try/catch; a caught `AuthError` is mapped by its `type` — `CredentialsSignin`
to "Invalid credentials.", anything else to "Something went wrong." — and
any other caught value is re-thrown. -/
def authenticate (outcome : SignInOutcome) : AuthenticateResult :=
  match outcome with
  | .success => .returns none
  | .authFailure t =>
      if t = "CredentialsSignin" then .returns (some "Invalid credentials.")
      else .returns (some "Something went wrong.")
  | .otherFailure e => .throws e

/- ---------------------------------------------------------------------- -/
/- Helper lemmas                                                           -/
/- ---------------------------------------------------------------------- -/

theorem validateAmount_nan (v : Option String) (h : coerceNumber v = none) :
    validateAmount v = .error ["Expected number, received nan"] := by
  rw [validateAmount, h]

theorem validateAmount_pos (v : Option String) (q : ℚ) (h : coerceNumber v = some q)
    (hq : 0 < q) : validateAmount v = .ok q := by
  rw [validateAmount, h]
  exact if_pos hq

theorem validateAmount_nonpos (v : Option String) (q : ℚ) (h : coerceNumber v = some q)
    (hq : ¬ 0 < q) : validateAmount v = .error ["Please enter an amount greater tahn $0."] := by
  rw [validateAmount, h]
  exact if_neg hq

theorem coerceNumber_str_50 : coerceNumber (some "50") = some 50 := by
  have h : jsNumberRep "50" = some (false, 50, 0, 0) := by decide
  simp only [coerceNumber, jsNumber, h, Option.map]
  norm_num [ratOfRep]

theorem coerceNumber_str_25_50 : coerceNumber (some "25.50") = some (51 / 2) := by
  have h : jsNumberRep "25.50" = some (false, 25, 50, 2) := by decide
  simp only [coerceNumber, jsNumber, h, Option.map]
  norm_num [ratOfRep]

theorem coerceNumber_str_0_001 : coerceNumber (some "0.001") = some (1 / 1000) := by
  have h : jsNumberRep "0.001" = some (false, 0, 1, 3) := by decide
  simp only [coerceNumber, jsNumber, h, Option.map]
  norm_num [ratOfRep]

theorem coerceNumber_str_0 : coerceNumber (some "0") = some 0 := by
  have h : jsNumberRep "0" = some (false, 0, 0, 0) := by decide
  simp only [coerceNumber, jsNumber, h, Option.map]
  norm_num [ratOfRep]

theorem coerceNumber_str_empty : coerceNumber (some "") = some 0 := by
  have h : jsNumberRep "" = some (false, 0, 0, 0) := by decide
  simp only [coerceNumber, jsNumber, h, Option.map]
  norm_num [ratOfRep]

theorem coerceNumber_str_abc : coerceNumber (some "abc") = none := by
  have h : jsNumberRep "abc" = none := by decide
  simp only [coerceNumber, jsNumber, h, Option.map]

theorem omitIdDate_success (c : String) (av sv : Option String) (q : ℚ) (st : String)
    (hA : validateAmount av = .ok q) (hS : validateStatus sv = .ok st) :
    omitIdDateSafeParse ⟨some c, av, sv⟩ = .success ⟨c, q, st⟩ := by
  rw [omitIdDateSafeParse]
  simp [validateCustomerId, hA, hS]

/-- C1: on validation failure, createInvoice returns the validator's
field-error map with message "Missing Fields. Failed to Create Invoice."
and performs no database write. -/
theorem createInvoice_invalid_returns_errors (db : DB) (newId today : String)
    (sqlFails : Bool) (form : RawForm) (errs : FieldErrors)
    (h : CreateInvoice form = .failure errs) :
    createInvoice db newId today sqlFails form =
      ⟨db, [], .fieldFailure errs "Missing Fields. Failed to Create Invoice."⟩ := by
  simp [createInvoice, h]

theorem createInvoice_invalid_returns_errors_witness :
    CreateInvoice ⟨none, none, none⟩ =
      .failure ⟨["Please select a customer"],
                ["Please enter an amount greater tahn $0."],
                ["Please select an invoice status"]⟩ ∧
    createInvoice [] "i1" "2026-10-11" false ⟨none, none, none⟩ =
      ⟨[], [], .fieldFailure
        ⟨["Please select a customer"],
         ["Please enter an amount greater tahn $0."],
         ["Please select an invoice status"]⟩
        "Missing Fields. Failed to Create Invoice."⟩ := by
  have ha : validateAmount none = .error ["Please enter an amount greater tahn $0."] :=
    validateAmount_nonpos none 0 rfl (by norm_num)
  have hp : CreateInvoice ⟨none, none, none⟩ =
      .failure ⟨["Please select a customer"],
                ["Please enter an amount greater tahn $0."],
                ["Please select an invoice status"]⟩ := by
    rw [CreateInvoice, omitIdDateSafeParse]
    simp [validateCustomerId, validateStatus, ha, errsOf]
  exact ⟨hp, createInvoice_invalid_returns_errors [] "i1" "2026-10-11" false _ _ hp⟩

/-- C2 counterexample: the empty-string customerId passes validation. -/
theorem emptyCustomerId_accepted_cex :
    CreateInvoice ⟨some "", some "50", some "paid"⟩ = .success ⟨"", 50, "paid"⟩ ∧
    createInvoice [] "i1" "2026-10-11" false ⟨some "", some "50", some "paid"⟩ =
      ⟨[⟨"i1", "", 5000, "paid", "2026-10-11"⟩],
       ["/dashboard/invoices"], .redirected "/dashboard/invoices"⟩ := by
  have ha : validateAmount (some "50") = .ok 50 :=
    validateAmount_pos _ _ coerceNumber_str_50 (by norm_num)
  have hs : validateStatus (some "paid") = .ok "paid" := by simp [validateStatus]
  have hp : CreateInvoice ⟨some "", some "50", some "paid"⟩ = .success ⟨"", 50, "paid"⟩ :=
    omitIdDate_success "" _ _ _ _ ha hs
  refine ⟨hp, ?_⟩
  simp [createInvoice, hp]
  norm_num

/-- C2 amended: a missing customerId fails validation with that message. -/
theorem missing_customerId_rejected (db : DB) (newId today : String)
    (sqlFails : Bool) (a s : Option String) :
    ∃ errs : FieldErrors,
      CreateInvoice ⟨none, a, s⟩ = .failure errs ∧
      "Please select a customer" ∈ errs.customerId ∧
      createInvoice db newId today sqlFails ⟨none, a, s⟩ =
        ⟨db, [], .fieldFailure errs "Missing Fields. Failed to Create Invoice."⟩ := by
  have hp : CreateInvoice ⟨none, a, s⟩ =
      .failure ⟨["Please select a customer"], errsOf (validateAmount a),
                errsOf (validateStatus s)⟩ := by
    rw [CreateInvoice, omitIdDateSafeParse]
    rcases hA : validateAmount a with q | es <;> rcases hS : validateStatus s with t | es2 <;>
      simp [validateCustomerId, errsOf, hA, hS]
  exact ⟨_, hp, by simp, by simp [createInvoice, hp]⟩

/-- C3 counterexample: the amount is stored unrounded. -/
theorem createInvoice_amount_not_rounded_cex :
    CreateInvoice ⟨some "c1", some "0.001", some "pending"⟩ =
      .success ⟨"c1", 1 / 1000, "pending"⟩ ∧
    (createInvoice [] "i1" "2026-10-11" false
        ⟨some "c1", some "0.001", some "pending"⟩).db =
      [⟨"i1", "c1", 1 / 10, "pending", "2026-10-11"⟩] ∧
    ((1 : ℚ) / 10) ≠ ((round ((1 : ℚ) / 1000 * 100) : ℤ) : ℚ) := by
  have ha : validateAmount (some "0.001") = .ok (1 / 1000) :=
    validateAmount_pos _ _ coerceNumber_str_0_001 (by norm_num)
  have hs : validateStatus (some "pending") = .ok "pending" := by simp [validateStatus]
  have hp : CreateInvoice ⟨some "c1", some "0.001", some "pending"⟩ =
      .success ⟨"c1", 1 / 1000, "pending"⟩ :=
    omitIdDate_success "c1" _ _ _ _ ha hs
  refine ⟨hp, ?_, by norm_num [round_eq]⟩
  simp [createInvoice, hp]
  norm_num

/-- C3 amended: one row inserted with amount = input amount * 100. -/
theorem createInvoice_valid_inserts_row (db : DB) (newId today : String)
    (form : RawForm) (data : InvoiceFields)
    (h : CreateInvoice form = .success data) :
    createInvoice db newId today false form =
      ⟨db ++ [⟨newId, data.customerId, data.amount * 100, data.status, today⟩],
       ["/dashboard/invoices"], .redirected "/dashboard/invoices"⟩ := by
  simp [createInvoice, h]

theorem createInvoice_valid_inserts_row_witness :
    CreateInvoice ⟨some "c1", some "25.50", some "pending"⟩ =
      .success ⟨"c1", 51 / 2, "pending"⟩ ∧
    createInvoice [] "i1" "2026-10-11" false ⟨some "c1", some "25.50", some "pending"⟩ =
      ⟨[⟨"i1", "c1", 2550, "pending", "2026-10-11"⟩],
       ["/dashboard/invoices"], .redirected "/dashboard/invoices"⟩ := by
  have ha : validateAmount (some "25.50") = .ok (51 / 2) :=
    validateAmount_pos _ _ coerceNumber_str_25_50 (by norm_num)
  have hs : validateStatus (some "pending") = .ok "pending" := by simp [validateStatus]
  have hp : CreateInvoice ⟨some "c1", some "25.50", some "pending"⟩ =
      .success ⟨"c1", 51 / 2, "pending"⟩ :=
    omitIdDate_success "c1" _ _ _ _ ha hs
  refine ⟨hp, ?_⟩
  rw [createInvoice_valid_inserts_row [] "i1" "2026-10-11" _ _ hp]
  norm_num

/-- C4: deleteInvoice throws before its own DELETE and revalidation. -/
theorem deleteInvoice_always_throws (db : DB) (id : String) :
    deleteInvoice db id = .error ("Failed to Delete Invoice", ⟨db, []⟩) := rfl

/-- C5: the authorization decision table. -/
theorem authorized_decision_table (p : String) :
    (strStartsWith p "/dashboard" = true →
      authorized true p = .allow ∧ authorized false p = .deny) ∧
    (strStartsWith p "/dashboard" = false →
      authorized true p = .redirectResponse "/dashboard" ∧ authorized false p = .allow) := by
  constructor <;> intro h <;> simp [authorized, h]

theorem authorized_decision_table_witness :
    (authorized true "/dashboard/invoices" = .allow ∧
     authorized false "/dashboard/invoices" = .deny) ∧
    (authorized true "/login" = .redirectResponse "/dashboard" ∧
     authorized false "/login" = .allow) :=
  ⟨(authorized_decision_table "/dashboard/invoices").1 (by decide),
   (authorized_decision_table "/login").2 (by decide)⟩

/-- C6: the credential-exchange error mapping. -/
theorem authenticate_error_mapping :
    authenticate .success = .returns none ∧
    authenticate (.authFailure "CredentialsSignin") = .returns (some "Invalid credentials.") ∧
    (∀ t : String, t ≠ "CredentialsSignin" →
      authenticate (.authFailure t) = .returns (some "Something went wrong.")) ∧
    (∀ e : String, authenticate (.otherFailure e) = .throws e) := by
  refine ⟨rfl, by simp [authenticate], ?_, fun e => rfl⟩
  intro t h
  simp [authenticate, h]

theorem authenticate_error_mapping_witness :
    authenticate (.authFailure "CallbackRouteError") = .returns (some "Something went wrong.") :=
  authenticate_error_mapping.2.2.1 "CallbackRouteError" (by decide)

/-- C7 counterexample: the messages for "0" and "abc" differ. -/
theorem amount_messages_differ_cex :
    validateAmount (some "0") = .error ["Please enter an amount greater tahn $0."] ∧
    validateAmount (some "abc") = .error ["Expected number, received nan"] ∧
    validateAmount (some "abc") ≠ validateAmount (some "0") ∧
    "Please enter an amount greater tahn $0." ≠ "Please enter an amount greater than $0." := by
  have h0 : validateAmount (some "0") = .error ["Please enter an amount greater tahn $0."] :=
    validateAmount_nonpos _ _ coerceNumber_str_0 (by norm_num)
  have habc : validateAmount (some "abc") = .error ["Expected number, received nan"] :=
    validateAmount_nan _ coerceNumber_str_abc
  refine ⟨h0, habc, ?_, by decide⟩
  rw [h0, habc]
  simp

/-- C7 amended: the exact amount-violation messages. -/
theorem amount_violation_messages :
    validateAmount (some "0") = .error ["Please enter an amount greater tahn $0."] ∧
    validateAmount (some "") = .error ["Please enter an amount greater tahn $0."] ∧
    validateAmount none = .error ["Please enter an amount greater tahn $0."] ∧
    validateAmount (some "abc") = .error ["Expected number, received nan"] :=
  ⟨validateAmount_nonpos _ _ coerceNumber_str_0 (by norm_num),
   validateAmount_nonpos _ _ coerceNumber_str_empty (by norm_num),
   validateAmount_nonpos _ _ rfl (by norm_num),
   validateAmount_nan _ coerceNumber_str_abc⟩

/-- C8: update writes only customer_id, amount, status. -/
theorem updateInvoice_preserves_id_and_date (db : DB) (id : String)
    (form : RawForm) (data : InvoiceFields)
    (h : UpdateInvoice form = .success data) :
    (updateInvoice db id false form).db =
      db.map (updateRow id data.customerId (data.amount * 100) data.status) ∧
    (updateInvoice db id false form).db.map (fun r => (r.id, r.date)) =
      db.map (fun r => (r.id, r.date)) := by
  have hdb : (updateInvoice db id false form).db =
      db.map (updateRow id data.customerId (data.amount * 100) data.status) := by
    simp [updateInvoice, h]
  refine ⟨hdb, ?_⟩
  rw [hdb, List.map_map]
  apply List.map_congr_left
  intro r _
  simp only [Function.comp, updateRow]
  split <;> simp

theorem updateInvoice_preserves_id_and_date_witness :
    UpdateInvoice ⟨some "c9", some "3", some "paid"⟩ = .success ⟨"c9", 3, "paid"⟩ ∧
    (updateInvoice [⟨"a", "c0", 100, "paid", "2026-01-01"⟩,
                    ⟨"b", "c0", 200, "pending", "2026-01-02"⟩] "a" false
        ⟨some "c9", some "3", some "paid"⟩).db =
      [⟨"a", "c9", 300, "paid", "2026-01-01"⟩,
       ⟨"b", "c0", 200, "pending", "2026-01-02"⟩] := by
  have ha : validateAmount (some "3") = .ok 3 := by
    have hr : jsNumberRep "3" = some (false, 3, 0, 0) := by decide
    refine validateAmount_pos _ _ ?_ (by norm_num)
    simp only [coerceNumber, jsNumber, hr, Option.map]
    norm_num [ratOfRep]
  have hs : validateStatus (some "paid") = .ok "paid" := by simp [validateStatus]
  have hp : UpdateInvoice ⟨some "c9", some "3", some "paid"⟩ = .success ⟨"c9", 3, "paid"⟩ :=
    omitIdDate_success "c9" _ _ _ _ ha hs
  refine ⟨hp, ?_⟩
  rw [(updateInvoice_preserves_id_and_date _ "a" _ _ hp).1]
  norm_num [updateRow]
  decide

/-- C9 counterexample: the submitted out-of-enum string "overdue" fails
with zod's default invalid-enum-value message, not with "Please select an
invoice status". -/
theorem status_default_enum_message_cex :
    validateStatus (some "overdue") = .error [invalidEnumValueMessage "overdue"] ∧
    validateStatus (some "overdue") ≠ .error ["Please select an invoice status"] ∧
    invalidEnumValueMessage "overdue" ≠ "Please select an invoice status" := by
  refine ⟨?_, ?_, by decide⟩
  · simp [validateStatus]
  · simp [validateStatus]
    decide

/-- C9 amended: a missing status fails with "Please select an invoice
status", a submitted string outside the enum fails with zod's default
invalid-enum-value message naming the received value, and "pending" and
"paid" contribute no status error. -/
theorem status_enum_messages :
    validateStatus none = .error ["Please select an invoice status"] ∧
    (∀ s : String, s ≠ "pending" → s ≠ "paid" →
      validateStatus (some s) = .error [invalidEnumValueMessage s]) ∧
    (∀ s : String, s = "pending" ∨ s = "paid" → validateStatus (some s) = .ok s) := by
  refine ⟨rfl, ?_, ?_⟩
  · intro s hs1 hs2
    simp [validateStatus, hs1, hs2]
  · intro s hs
    rcases hs with h | h <;> simp [validateStatus, h]

theorem status_enum_messages_witness :
    validateStatus (some "overdue") = .error [invalidEnumValueMessage "overdue"] ∧
    validateStatus (some "paid") = .ok "paid" :=
  ⟨status_enum_messages.2.1 "overdue" (by decide) (by decide),
   status_enum_messages.2.2 "paid" (Or.inr rfl)⟩

/-- C10: Create and Update use the identical schema. -/
theorem create_update_same_schema (raw : RawForm) :
    CreateInvoice raw = UpdateInvoice raw := rfl
